import Mathlib

/-!
Shallow embedding of the access-control and credential core of the
`full-stack-fastapi-documentdb` backend (FastAPI + Beanie/DocumentDB).

The store is modelled as two in-memory collections (lists of documents),
mirroring the Beanie calls used by the code:
  * `Document.get id`            → `List.find?` on the id
  * `Document.find_one (f = v)`  → `List.find?` on the field
  * `document.insert ()`         → append to the collection
  * `document.update \x7b$set: d\x7d` → map over the collection, replacing fields
  * `document.delete ()`         → filter the collection by id
BSON ObjectIds are opaque unique identifiers; they are modelled as `Nat`,
with fresh-id generation (`ObjectId()` default factory) modelled as a
deterministic fresh choice.  Datetimes are opaque `Nat` timestamps.

The password primitives `get_password_hash` / `verify_password` live in
`app/core/security.py`, which is not part of the sources here (only its
callers are); every definition that needs them is parametrised over a
`Crypto` record of the two functions.
-/

namespace App

abbrev OId := Nat
abbrev DateTime := Nat

/-- `app/core/security.py` interface: `get_password_hash` and
`verify_password`, passed as parameters since that module's code is
external to the embedded sources. -/
structure Crypto where
  hash : String → String
  verify : String → String → Bool

/-- `models.User` (Beanie document; `UserBase` fields plus `id` and
`hashed_password`). -/
structure User where
  id : OId
  email : String
  hashed_password : String
  is_active : Bool
  is_superuser : Bool
  full_name : Option String
  created_at : DateTime
  updated_at : DateTime
deriving Repr, DecidableEq

/-- `models.Item` (Beanie document; `ItemBase` fields plus `id` and
`owner_id`). -/
structure Item where
  id : OId
  title : String
  description : Option String
  owner_id : OId
  created_at : DateTime
  updated_at : DateTime
deriving Repr, DecidableEq

/-- The two DocumentDB collections (`users`, `items`). -/
structure Store where
  users : List User
  items : List Item
deriving Repr, DecidableEq

/-- `models.UserCreate`: `UserBase` fields plus plaintext `password`
(`is_active` defaults to true, `is_superuser` to false). -/
structure UserCreate where
  email : String
  password : String
  is_active : Bool := true
  is_superuser : Bool := false
  full_name : Option String := none
deriving Repr, DecidableEq

/-- `models.UserRegister`: the public-signup payload. -/
structure UserRegister where
  email : String
  password : String
  full_name : Option String := none
deriving Repr, DecidableEq

/-- `models.UserUpdate`: a partial patch; `none` means the field was not
set in the request (pydantic `exclude_unset`), `some v` means it was.
For the nullable `full_name`, `some none` is an explicit null. -/
structure UserUpdate where
  email : Option String := none
  password : Option String := none
  is_active : Option Bool := none
  is_superuser : Option Bool := none
  full_name : Option (Option String) := none
deriving Repr, DecidableEq

/-- `models.UpdatePassword`. -/
structure UpdatePassword where
  current_password : String
  new_password : String
deriving Repr, DecidableEq

/-- `models.ItemCreate`: `ItemBase` payload fields. -/
structure ItemCreate where
  title : String
  description : Option String := none
deriving Repr, DecidableEq

/-- `models.ItemUpdate`: a partial patch with `exclude_unset` semantics;
`title`/`description` are the declared optional fields, and the
inherited `created_at`/`updated_at` may also appear in a request body. -/
structure ItemUpdate where
  title : Option String := none
  description : Option (Option String) := none
  created_at : Option DateTime := none
  updated_at : Option DateTime := none
deriving Repr, DecidableEq

/-- `PrivateUserCreate` from `app/api/routes/private.py`. -/
structure PrivateUserCreate where
  email : String
  password : String
  full_name : String
  is_verified : Bool := false
deriving Repr, DecidableEq

/-- `models.Message`. -/
structure Message where
  message : String
deriving Repr, DecidableEq

/-- A raised `fastapi.HTTPException` (status code and detail). -/
structure HTTPException where
  status : Nat
  detail : String
deriving Repr, DecidableEq

/-- A fresh ObjectId: `ObjectId()` always yields an id not in use.
Modelled deterministically as one more than the largest id in the store. -/
def Store.freshId (s : Store) : OId :=
  (s.users.map User.id ++ s.items.map Item.id).foldr max 0 + 1

/-- `User.get(user_id)`. -/
def getUserById (s : Store) (user_id : OId) : Option User :=
  s.users.find? (fun u => u.id == user_id)

/-- `User.find_one(User.email == email)` (crud.get_user_by_email). -/
def getUserByEmail (s : Store) (email : String) : Option User :=
  s.users.find? (fun u => u.email == email)

/-- `Item.get(item_id)` (crud.get_item). -/
def getItemById (s : Store) (item_id : OId) : Option Item :=
  s.items.find? (fun it => it.id == item_id)

namespace crud

/-- `crud.create_user`: hash the password, build the `User` document
(fresh id, timestamps from the default factory) and insert it. -/
def create_user (c : Crypto) (s : Store) (user_create : UserCreate)
    (now : DateTime) : User × Store :=
  let user : User :=
    { id := s.freshId
      email := user_create.email
      hashed_password := c.hash user_create.password
      is_active := user_create.is_active
      is_superuser := user_create.is_superuser
      full_name := user_create.full_name
      created_at := now
      updated_at := now }
  (user, { s with users := s.users ++ [user] })

/-- The `$set` document built by `crud.update_user` applied to one user:
fields present in the patch are written (password becomes
`hashed_password` via the hash), unset fields are left as they are. -/
def applyUserUpdate (c : Crypto) (u : User) (user_in : UserUpdate) : User :=
  { u with
    email := user_in.email.getD u.email
    hashed_password := (user_in.password.map c.hash).getD u.hashed_password
    is_active := user_in.is_active.getD u.is_active
    is_superuser := user_in.is_superuser.getD u.is_superuser
    full_name := user_in.full_name.getD u.full_name }

/-- `crud.update_user`: fetch by id (`None` if absent), then
`user.update(\x7b"$set": user_data\x7d)` with the `exclude_unset` dump. -/
def update_user (c : Crypto) (s : Store) (user_id : OId)
    (user_in : UserUpdate) : Option User × Store :=
  match getUserById s user_id with
  | none => (none, s)
  | some user =>
      let updated := applyUserUpdate c user user_in
      (some updated,
        { s with
          users := s.users.map (fun u =>
            if u.id == user_id then applyUserUpdate c u user_in else u) })

/-- `crud.authenticate`: look the user up by email; `None` when the email
is unknown, `None` when the password fails verification. -/
def authenticate (c : Crypto) (s : Store) (email password : String) :
    Option User :=
  match getUserByEmail s email with
  | none => none
  | some user =>
      if c.verify password user.hashed_password then some user else none

/-- `crud.create_item`: build the `Item` document with `owner_id` set to
the given owner and insert it. -/
def create_item (s : Store) (item_in : ItemCreate) (owner_id : OId)
    (now : DateTime) : Item × Store :=
  let item : Item :=
    { id := s.freshId
      title := item_in.title
      description := item_in.description
      owner_id := owner_id
      created_at := now
      updated_at := now }
  (item, { s with items := s.items ++ [item] })

/-- `crud.get_items_by_owner`: `Item.find(Item.owner_id == owner_id)`
with `.skip(skip).limit(limit)`; the defaults are `skip=0, limit=100`. -/
def get_items_by_owner (s : Store) (owner_id : OId)
    (skip : Nat := 0) (limit : Nat := 100) : List Item :=
  ((s.items.filter (fun it => it.owner_id == owner_id)).drop skip).take limit

/-- The `$set` document built by `crud.update_item` applied to one item. -/
def applyItemUpdate (it : Item) (item_in : ItemUpdate) : Item :=
  { it with
    title := item_in.title.getD it.title
    description := item_in.description.getD it.description
    created_at := item_in.created_at.getD it.created_at
    updated_at := item_in.updated_at.getD it.updated_at }

/-- `crud.update_item`: fetch by id (`None` if absent), then
`item.update(\x7b"$set": item_data\x7d)` with the `exclude_unset` dump. -/
def update_item (s : Store) (item_id : OId) (item_in : ItemUpdate) :
    Option Item × Store :=
  match getItemById s item_id with
  | none => (none, s)
  | some item =>
      let updated := applyItemUpdate item item_in
      (some updated,
        { s with
          items := s.items.map (fun it =>
            if it.id == item_id then applyItemUpdate it item_in else it) })

/-- `crud.delete_item`: fetch by id, `False` if absent, otherwise delete
the document and return `True`. -/
def delete_item (s : Store) (item_id : OId) : Bool × Store :=
  match getItemById s item_id with
  | none => (false, s)
  | some _ => (true, { s with items := s.items.filter (fun it => it.id != item_id) })

end crud

/-- `deps.get_current_active_user`: rejects inactive principals.  The
token-resolution part of `get_current_user` is the out-of-scope Token
Service; the principal arrives already resolved to a `User`. -/
def get_current_active_user (current_user : User) : Except HTTPException User :=
  if !current_user.is_active then .error ⟨400, "Inactive user"⟩
  else .ok current_user

/-- `deps.get_current_active_superuser`: rejects non-superusers. -/
def get_current_active_superuser (current_user : User) :
    Except HTTPException User :=
  if !current_user.is_superuser then
    .error ⟨400, "The user doesn't have enough privileges"⟩
  else .ok current_user

/-- `models.UserPublic`: `UserBase` fields plus `id`; no
`hashed_password` field exists on this model. -/
structure UserPublic where
  id : OId
  email : String
  is_active : Bool
  is_superuser : Bool
  full_name : Option String
  created_at : DateTime
  updated_at : DateTime
deriving Repr, DecidableEq

/-- The `response_model=UserPublic` projection FastAPI applies to a
returned `User` document. -/
def toUserPublic (u : User) : UserPublic :=
  { id := u.id
    email := u.email
    is_active := u.is_active
    is_superuser := u.is_superuser
    full_name := u.full_name
    created_at := u.created_at
    updated_at := u.updated_at }

/-- Wire serialization of a `UserPublic` response body: the list of
(field name, rendered value) pairs, exactly the fields of the model. -/
def UserPublic.serialize (p : UserPublic) : List (String × String) :=
  [("_id", toString p.id),
   ("email", p.email),
   ("is_active", toString p.is_active),
   ("is_superuser", toString p.is_superuser),
   ("full_name", p.full_name.getD "null"),
   ("created_at", toString p.created_at),
   ("updated_at", toString p.updated_at)]

/-- The `response_model=UserPublic` boundary applied to a handler result:
a returned `User` is filtered to `UserPublic` and serialized. -/
def respondUserPublic (r : Except HTTPException User) :
    Except HTTPException (List (String × String)) :=
  r.map (fun u => (toUserPublic u).serialize)

/-- `models.UsersPublic`: a page of public users plus a count. -/
structure UsersPublic where
  data : List UserPublic
  count : Nat
deriving Repr, DecidableEq

namespace crud

/-- `crud.get_users`: `User.find_all().skip(skip).limit(limit)`. -/
def get_users (s : Store) (skip : Nat := 0) (limit : Nat := 100) : List User :=
  (s.users.drop skip).take limit

end crud

namespace users

/-- `routes/users.py read_users` (superuser-only route): page of users,
serialized through `response_model=UsersPublic`. -/
def read_users (s : Store) (current_user : User) (skip : Nat := 0)
    (limit : Nat := 100) : Except HTTPException UsersPublic :=
  match get_current_active_superuser current_user with
  | .error e => .error e
  | .ok _ =>
      let us := crud.get_users s skip limit
      .ok { data := us.map toUserPublic, count := us.length }

end users

namespace users

/-- `routes/users.py create_user` (admin path, superuser-only route):
reject if the email is taken, otherwise `crud.create_user`.  The
new-account email side effect is external and not modelled. -/
def create_user (c : Crypto) (s : Store) (current_user : User)
    (user_in : UserCreate) (now : DateTime) :
    Except HTTPException User × Store :=
  match get_current_active_superuser current_user with
  | .error e => (.error e, s)
  | .ok _ =>
      match getUserByEmail s user_in.email with
      | some _ =>
          (.error ⟨400, "The user with this email already exists in the system."⟩, s)
      | none =>
          let (user, s1) := crud.create_user c s user_in now
          (.ok user, s1)

/-- `current_user.update(\x7b"$set": \x7b"hashed_password": hashed\x7d\x7d)` applied
to one stored document: the matching id gets the new hash. -/
def setHashedPassword (uid : OId) (hashed : String) (u : User) : User :=
  if u.id == uid then { u with hashed_password := hashed } else u

/-- `routes/users.py update_password_me`: verify the current password
against the stored hash, reject reuse of the same password, otherwise
hash the new password and `$set` the `hashed_password` field. -/
def update_password_me (c : Crypto) (s : Store) (current_user : User)
    (body : UpdatePassword) : Except HTTPException Message × Store :=
  match get_current_active_user current_user with
  | .error e => (.error e, s)
  | .ok cu =>
      if !(c.verify body.current_password cu.hashed_password) then
        (.error ⟨400, "Incorrect password"⟩, s)
      else if body.current_password == body.new_password then
        (.error ⟨400, "New password cannot be the same as the current one"⟩, s)
      else
        let hashed := c.hash body.new_password
        (.ok ⟨"Password updated successfully"⟩,
          { s with users := s.users.map (setHashedPassword cu.id hashed) })

/-- `routes/users.py read_user_me`: returns the current user. -/
def read_user_me (current_user : User) : Except HTTPException User :=
  match get_current_active_user current_user with
  | .error e => .error e
  | .ok cu => .ok cu

/-- `routes/users.py delete_user_me`: superusers may not delete
themselves; otherwise `current_user.delete()` — only the user document
is deleted. -/
def delete_user_me (s : Store) (current_user : User) :
    Except HTTPException Message × Store :=
  match get_current_active_user current_user with
  | .error e => (.error e, s)
  | .ok cu =>
      if cu.is_superuser then
        (.error ⟨403, "Super users are not allowed to delete themselves"⟩, s)
      else
        (.ok ⟨"User deleted successfully"⟩,
          { s with users := s.users.filter (fun u => u.id != cu.id) })

/-- `routes/users.py register_user` (public signup): reject if the email
is taken, otherwise validate into `UserCreate` (defaults
`is_active=true`, `is_superuser=false`) and `crud.create_user`. -/
def register_user (c : Crypto) (s : Store) (user_in : UserRegister)
    (now : DateTime) : Except HTTPException User × Store :=
  match getUserByEmail s user_in.email with
  | some _ =>
      (.error ⟨400, "The user with this email already exists in the system"⟩, s)
  | none =>
      let user_create : UserCreate :=
        { email := user_in.email
          password := user_in.password
          full_name := user_in.full_name }
      let (user, s1) := crud.create_user c s user_create now
      (.ok user, s1)

/-- `routes/users.py read_user_by_id`: 404 if absent; a user may read
their own record; otherwise only superusers are allowed. -/
def read_user_by_id (s : Store) (current_user : User) (user_id : OId) :
    Except HTTPException User :=
  match getUserById s user_id with
  | none => .error ⟨404, "User not found"⟩
  | some user =>
      if user.id == current_user.id then .ok user
      else if !current_user.is_superuser then
        .error ⟨403, "The user doesn't have enough privileges"⟩
      else .ok user

/-- `routes/users.py update_user` (admin patch by id, superuser-only
route): 404 if absent, 409 if the patched email belongs to a different
user, otherwise `crud.update_user`. -/
def update_user (c : Crypto) (s : Store) (current_user : User)
    (user_id : OId) (user_in : UserUpdate) :
    Except HTTPException User × Store :=
  match get_current_active_superuser current_user with
  | .error e => (.error e, s)
  | .ok _ =>
      match getUserById s user_id with
      | none =>
          (.error ⟨404, "The user with this id does not exist in the system"⟩, s)
      | some _ =>
          let emailConflict :=
            match user_in.email with
            | none => false
            | some e =>
                match getUserByEmail s e with
                | none => false
                | some existing => existing.id != user_id
          if emailConflict then
            (.error ⟨409, "User with this email already exists"⟩, s)
          else
            match crud.update_user c s user_id user_in with
            | (some u, s1) => (.ok u, s1)
            | (none, s1) => (.error ⟨404, "User not found"⟩, s1)

/-- `routes/users.py delete_user` (superuser-only route): 404 if the
target is absent, 403 if the target is the acting user; otherwise delete
the target's owned items via `crud.get_items_by_owner` (default
`skip=0, limit=100`) and `crud.delete_item`, then delete the user. -/
def delete_user (s : Store) (current_user : User) (user_id : OId) :
    Except HTTPException Message × Store :=
  match get_current_active_superuser current_user with
  | .error e => (.error e, s)
  | .ok _ =>
      match getUserById s user_id with
      | none => (.error ⟨404, "User not found"⟩, s)
      | some user =>
          if user.id == current_user.id then
            (.error ⟨403, "Super users are not allowed to delete themselves"⟩, s)
          else
            let items := crud.get_items_by_owner s user_id
            let s1 := items.foldl (fun st it => (crud.delete_item st it.id).2) s
            (.ok ⟨"User deleted successfully"⟩,
              { s1 with users := s1.users.filter (fun u => u.id != user.id) })

end users

namespace items

/-- `routes/items.py read_item`: 404 if absent; non-superusers that do
not own the item are denied. -/
def read_item (s : Store) (current_user : User) (id : OId) :
    Except HTTPException Item :=
  match getItemById s id with
  | none => .error ⟨404, "Item not found"⟩
  | some item =>
      if !current_user.is_superuser && (item.owner_id != current_user.id) then
        .error ⟨400, "Not enough permissions"⟩
      else .ok item

/-- `routes/items.py create_item`: `owner_id` is the current user's id. -/
def create_item (s : Store) (current_user : User) (item_in : ItemCreate)
    (now : DateTime) : Except HTTPException Item × Store :=
  let (item, s1) := crud.create_item s item_in current_user.id now
  (.ok item, s1)

/-- `routes/items.py update_item`: 404 if absent; non-superusers that do
not own the item are denied; otherwise `crud.update_item`. -/
def update_item (s : Store) (current_user : User) (id : OId)
    (item_in : ItemUpdate) : Except HTTPException Item × Store :=
  match getItemById s id with
  | none => (.error ⟨404, "Item not found"⟩, s)
  | some item =>
      if !current_user.is_superuser && (item.owner_id != current_user.id) then
        (.error ⟨400, "Not enough permissions"⟩, s)
      else
        match crud.update_item s id item_in with
        | (some u, s1) => (.ok u, s1)
        | (none, s1) => (.error ⟨404, "Item not found"⟩, s1)

/-- `routes/items.py delete_item`: 404 if absent; non-superusers that do
not own the item are denied; otherwise `crud.delete_item`. -/
def delete_item (s : Store) (current_user : User) (id : OId) :
    Except HTTPException Message × Store :=
  match getItemById s id with
  | none => (.error ⟨404, "Item not found"⟩, s)
  | some item =>
      if !current_user.is_superuser && (item.owner_id != current_user.id) then
        (.error ⟨400, "Not enough permissions"⟩, s)
      else
        (.ok ⟨"Item deleted successfully"⟩, (crud.delete_item s id).2)

end items

namespace private_api

/-- `routes/private.py create_user`: builds a `UserCreate` from the
payload and calls `crud.create_user` directly — no email-uniqueness
check is performed on this path. -/
def create_user (c : Crypto) (s : Store) (user_in : PrivateUserCreate)
    (now : DateTime) : Except HTTPException User × Store :=
  let user_create : UserCreate :=
    { email := user_in.email
      password := user_in.password
      full_name := some user_in.full_name }
  let (user, s1) := crud.create_user c s user_create now
  (.ok user, s1)

end private_api

/-- The email-uniqueness invariant of the `users` collection: no two
stored user documents share an email. -/
def uniqueEmails (s : Store) : Prop :=
  s.users.Pairwise (fun u v => u.email ≠ v.email)

instance (s : Store) : Decidable (uniqueEmails s) := by
  unfold uniqueEmails; infer_instance

/-- Modelled from the spec: `app/core/security.py` (the Credential
Service, `get_password_hash` / `verify_password`) is not among the
sources, only its callers are.  Per the spec, `verify(p, hash(p))` is
true and `verify(q, hash(p))` is false for `q ≠ p`; this concrete
instance (tag the plaintext and compare) satisfies exactly that and is
used to instantiate the `Crypto` parameter in concrete runs. -/
def specCrypto : Crypto :=
  { hash := fun p => "!" ++ p
    verify := fun p h => h == "!" ++ p }

/-- Concrete regular user (owner of `book`), for concrete runs. -/
def alice : User :=
  { id := 1, email := "alice@example.com", hashed_password := "!pw123456"
    is_active := true, is_superuser := false, full_name := none
    created_at := 0, updated_at := 0 }

/-- Concrete second regular user, for concrete runs. -/
def bob : User :=
  { id := 2, email := "bob@example.com", hashed_password := "!pw234567"
    is_active := true, is_superuser := false, full_name := none
    created_at := 0, updated_at := 0 }

/-- Concrete superuser, for concrete runs. -/
def rootUser : User :=
  { id := 3, email := "admin@example.com", hashed_password := "!pwadmin99"
    is_active := true, is_superuser := true, full_name := none
    created_at := 0, updated_at := 0 }

/-- Concrete item owned by `alice`, for concrete runs. -/
def book : Item :=
  { id := 10, title := "Book", description := none, owner_id := 1
    created_at := 0, updated_at := 0 }

/-- Concrete store holding the three users and `alice`'s item. -/
def baseStore : Store :=
  { users := [alice, bob, rootUser], items := [book] }

/-- A store where `bob` owns 101 items (ids 100–200), exceeding the
default `limit=100` of `crud.get_items_by_owner`. -/
def manyItemsStore : Store :=
  { users := [bob, rootUser]
    items := (List.range 101).map (fun k =>
      { id := 100 + k, title := "it", description := none, owner_id := 2
        created_at := 0, updated_at := 0 }) }

/-! ## Helper lemmas -/

/-- `crud.delete_item` removes exactly the documents with the given id
(and leaves everything else, in particular the `users` collection,
untouched), whether or not the id was present. -/
theorem delete_item_snd (s : Store) (i : OId) :
    (crud.delete_item s i).2
      = { s with items := s.items.filter (fun it => it.id != i) } := by
  unfold crud.delete_item
  cases h : getItemById s i with
  | none =>
      have hall : ∀ it ∈ s.items, (it.id != i) = true := by
        intro it hit
        have hne := List.find?_eq_none.mp h it hit
        simpa [bne] using hne
      simp only [List.filter_eq_self.mpr hall]
  | some it => rfl

/-- Folding `crud.delete_item` over a list of items removes exactly the
documents whose id occurs in that list. -/
theorem foldl_delete_items (L : List Item) (s : Store) :
    L.foldl (fun st it => (crud.delete_item st it.id).2) s
      = { s with
          items := s.items.filter (fun x => L.all (fun it => x.id != it.id)) } := by
  induction L generalizing s with
  | nil =>
      simp only [List.foldl_nil, List.all_nil, List.filter_true]
  | cons a as ih =>
      rw [List.foldl_cons, delete_item_snd, ih]
      simp only [List.filter_filter]
      congr 1
      apply List.filter_congr
      intro x _
      simp [List.all_cons, Bool.and_comm]

/-- Mapping an email-preserving function over the users collection
commutes with lookup by email. -/
theorem find_email_map (l : List User) (e : String) (f : User → User)
    (hf : ∀ u, (f u).email = u.email) :
    (l.map f).find? (fun u => u.email == e)
      = (l.find? (fun u => u.email == e)).map f := by
  rw [List.find?_map]
  have hp : ((fun u : User => u.email == e) ∘ f) = fun u => u.email == e := by
    funext u
    simp [Function.comp, hf]
  rw [hp]

/-! ## Claim theorems -/

/-- C6: for every Item endpoint taking an item id (get, update, delete),
when no Item with that id exists the operation fails with 404 NotFound
for every principal — in particular a non-owner probing a nonexistent id
gets NotFound, never a permission denial — so the existence check comes
before the ownership check, uniformly across the three endpoints. -/
theorem item_endpoints_notFound_before_ownership (s : Store) (u : User)
    (i : OId) (item_in : ItemUpdate) (h : getItemById s i = none) :
    items.read_item s u i = .error ⟨404, "Item not found"⟩ ∧
    items.update_item s u i item_in = (.error ⟨404, "Item not found"⟩, s) ∧
    items.delete_item s u i = (.error ⟨404, "Item not found"⟩, s) := by
  unfold items.read_item items.update_item items.delete_item
  rw [h]
  exact ⟨rfl, rfl, rfl⟩

/-- Witness for C6: `bob` (a non-owner, non-superuser) probing the
nonexistent item id 99 in the concrete store gets 404. -/
theorem item_endpoints_notFound_before_ownership_witness :
    getItemById baseStore 99 = none ∧
    items.read_item baseStore bob 99 = .error ⟨404, "Item not found"⟩ :=
  ⟨by decide,
   (item_endpoints_notFound_before_ownership baseStore bob 99 {} (by decide)).1⟩

/-- C3: for every existing Item and each of the get/update/delete
endpoints, a non-superuser whose id differs from the item's `owner_id`
is denied; the owner is allowed; a superuser is allowed. -/
theorem item_ownership_policy (s : Store) (u : User) (item : Item)
    (item_in : ItemUpdate) (hexist : getItemById s item.id = some item) :
    (u.is_superuser = false → u.id ≠ item.owner_id →
      items.read_item s u item.id = .error ⟨400, "Not enough permissions"⟩ ∧
      items.update_item s u item.id item_in
        = (.error ⟨400, "Not enough permissions"⟩, s) ∧
      items.delete_item s u item.id
        = (.error ⟨400, "Not enough permissions"⟩, s)) ∧
    (u.id = item.owner_id →
      items.read_item s u item.id = .ok item ∧
      (items.update_item s u item.id item_in).1
        = .ok (crud.applyItemUpdate item item_in) ∧
      (items.delete_item s u item.id).1 = .ok ⟨"Item deleted successfully"⟩) ∧
    (u.is_superuser = true →
      items.read_item s u item.id = .ok item ∧
      (items.update_item s u item.id item_in).1
        = .ok (crud.applyItemUpdate item item_in) ∧
      (items.delete_item s u item.id).1 = .ok ⟨"Item deleted successfully"⟩) := by
  unfold items.read_item items.update_item items.delete_item crud.update_item
  rw [hexist]
  refine ⟨?_, ?_, ?_⟩
  · intro hsu hne
    have hguard : (!u.is_superuser && (item.owner_id != u.id)) = true := by
      simp [hsu, bne_iff_ne, Ne.symm hne]
    simp [hguard]
  · intro hown
    have hguard : (!u.is_superuser && (item.owner_id != u.id)) = false := by
      simp [bne, hown]
    simp [hguard]
  · intro hsu
    have hguard : (!u.is_superuser && (item.owner_id != u.id)) = false := by
      simp [hsu]
    simp [hguard]

/-- Witness for C3: in the concrete store, `bob` (non-owner,
non-superuser) is denied reading `alice`'s item, `alice` (owner) reads
it, and the superuser reads it. -/
theorem item_ownership_policy_witness :
    items.read_item baseStore bob book.id
      = .error ⟨400, "Not enough permissions"⟩ ∧
    items.read_item baseStore alice book.id = .ok book ∧
    items.read_item baseStore rootUser book.id = .ok book :=
  ⟨((item_ownership_policy baseStore bob book {} (by decide)).1
      (by decide) (by decide)).1,
   ((item_ownership_policy baseStore alice book {} (by decide)).2.1
      (by decide)).1,
   ((item_ownership_policy baseStore rootUser book {} (by decide)).2.2
      (by decide)).1⟩

/-- C10: `crud.authenticate` returns the same failure value `none` both
when no user with the email exists and when the user exists but the
password fails verification, so a failed authentication does not reveal
whether the email is registered. -/
theorem authenticate_uniform_failure (c : Crypto) (s : Store)
    (email pw : String) :
    (getUserByEmail s email = none → crud.authenticate c s email pw = none) ∧
    (∀ u, getUserByEmail s email = some u →
      c.verify pw u.hashed_password = false →
      crud.authenticate c s email pw = none) := by
  unfold crud.authenticate
  constructor
  · intro h
    rw [h]
  · intro u h hv
    rw [h]
    simp [hv]

/-- Witness for C10: an unknown email and a wrong password for a known
email both authenticate to `none` in the concrete store. -/
theorem authenticate_uniform_failure_witness :
    crud.authenticate specCrypto baseStore "carol@example.com" "pw123456"
      = none ∧
    crud.authenticate specCrypto baseStore "alice@example.com" "wrongpass1"
      = none :=
  ⟨(authenticate_uniform_failure specCrypto baseStore "carol@example.com"
      "pw123456").1 (by decide),
   (authenticate_uniform_failure specCrypto baseStore "alice@example.com"
      "wrongpass1").2 alice (by decide) (by decide)⟩

/-- C5: self-deletion policy.  `delete_user_me` denies every superuser
with no state change (with the exact 403 when the principal is active);
`delete_user` denies with no state change whenever the target id
resolves to the acting principal's own record; and a superuser deleting
any other existing user succeeds. -/
theorem superuser_self_delete_policy (s : Store) (u target : User)
    (uid : OId) :
    (u.is_superuser = true →
      ∃ e, users.delete_user_me s u = (.error e, s)) ∧
    (u.is_superuser = true → u.is_active = true →
      users.delete_user_me s u
        = (.error ⟨403, "Super users are not allowed to delete themselves"⟩, s)) ∧
    (getUserById s uid = some target → target.id = u.id →
      ∃ e, users.delete_user s u uid = (.error e, s)) ∧
    (u.is_superuser = true → getUserById s uid = some target →
      target.id ≠ u.id →
      (users.delete_user s u uid).1 = .ok ⟨"User deleted successfully"⟩) := by
  refine ⟨?_, ?_, ?_, ?_⟩
  · intro hsu
    unfold users.delete_user_me get_current_active_user
    cases hact : u.is_active with
    | false => exact ⟨⟨400, "Inactive user"⟩, by simp⟩
    | true =>
        exact ⟨⟨403, "Super users are not allowed to delete themselves"⟩,
          by simp [hsu]⟩
  · intro hsu hact
    unfold users.delete_user_me get_current_active_user
    simp [hsu, hact]
  · intro hfind hid
    unfold users.delete_user get_current_active_superuser
    cases hsu : u.is_superuser with
    | false => exact ⟨⟨400, "The user doesn't have enough privileges"⟩, by simp⟩
    | true =>
        refine ⟨⟨403, "Super users are not allowed to delete themselves"⟩, ?_⟩
        rw [hfind] at *
        simp_all [beq_iff_eq]
  · intro hsu hfind hne
    unfold users.delete_user get_current_active_superuser
    rw [hfind]
    simp [hsu, beq_eq_false_iff_ne.mpr hne]

/-- Witness for C5: the superuser's self-delete is rejected with 403 and
an untouched store, a self-targeting delete-by-id is rejected, and the
superuser deleting `alice` succeeds in the concrete store. -/
theorem superuser_self_delete_policy_witness :
    users.delete_user_me baseStore rootUser
      = (.error ⟨403, "Super users are not allowed to delete themselves"⟩,
         baseStore) ∧
    (∃ e, users.delete_user baseStore rootUser 3 = (.error e, baseStore)) ∧
    (users.delete_user baseStore rootUser 1).1
      = .ok ⟨"User deleted successfully"⟩ :=
  ⟨(superuser_self_delete_policy baseStore rootUser rootUser 3).2.1
      (by decide) (by decide),
   (superuser_self_delete_policy baseStore rootUser rootUser 3).2.2.1
      (by decide) (by decide),
   (superuser_self_delete_policy baseStore rootUser alice 1).2.2.2
      (by decide) (by decide) (by decide)⟩

/-- C4: `update_password_me` denies with an untouched store when the
current password fails verification or when the new password equals the
current one; when the current password verifies and the new one differs,
the stored hash is replaced so that authenticating with the new password
succeeds (same user id) and authenticating with the old one fails. -/
theorem update_password_policy (c : Crypto) (s : Store) (u : User)
    (body : UpdatePassword) :
    (u.is_active = true →
      c.verify body.current_password u.hashed_password = false →
      users.update_password_me c s u body
        = (.error ⟨400, "Incorrect password"⟩, s)) ∧
    (u.is_active = true →
      c.verify body.current_password u.hashed_password = true →
      body.current_password = body.new_password →
      users.update_password_me c s u body
        = (.error ⟨400, "New password cannot be the same as the current one"⟩,
           s)) ∧
    (u.is_active = true →
      c.verify body.current_password u.hashed_password = true →
      body.current_password ≠ body.new_password →
      getUserByEmail s u.email = some u →
      c.verify body.new_password (c.hash body.new_password) = true →
      c.verify body.current_password (c.hash body.new_password) = false →
      (users.update_password_me c s u body).1
        = .ok ⟨"Password updated successfully"⟩ ∧
      (∃ v, crud.authenticate c (users.update_password_me c s u body).2
          u.email body.new_password = some v ∧ v.id = u.id) ∧
      crud.authenticate c (users.update_password_me c s u body).2
          u.email body.current_password = none) := by
  refine ⟨?_, ?_, ?_⟩
  · intro hact hv
    unfold users.update_password_me get_current_active_user
    simp [hact, hv]
  · intro hact hv hsame
    have hbeq : (body.current_password == body.new_password) = true :=
      beq_iff_eq.mpr hsame
    unfold users.update_password_me get_current_active_user
    simp [hact, hv, hbeq]
  · intro hact hv hne hfind hnew hold
    have hres : users.update_password_me c s u body
        = (.ok ⟨"Password updated successfully"⟩,
           { s with
             users := s.users.map
               (users.setHashedPassword u.id (c.hash body.new_password)) }) := by
      unfold users.update_password_me get_current_active_user
      simp [hact, hv, beq_eq_false_iff_ne.mpr hne]
    have hf : ∀ x : User,
        (users.setHashedPassword u.id (c.hash body.new_password) x).email
          = x.email := by
      intro x
      unfold users.setHashedPassword
      by_cases hx : (x.id == u.id) = true <;> simp [hx]
    have hfu : users.setHashedPassword u.id (c.hash body.new_password) u
        = { u with hashed_password := c.hash body.new_password } := by
      unfold users.setHashedPassword
      simp
    have hfind2 : getUserByEmail (users.update_password_me c s u body).2 u.email
        = some { u with hashed_password := c.hash body.new_password } := by
      rw [hres]
      show List.find? (fun x => x.email == u.email)
            (s.users.map (users.setHashedPassword u.id (c.hash body.new_password)))
          = some { u with hashed_password := c.hash body.new_password }
      rw [find_email_map s.users u.email
            (users.setHashedPassword u.id (c.hash body.new_password)) hf]
      unfold getUserByEmail at hfind
      rw [hfind, Option.map_some', hfu]
    refine ⟨by rw [hres],
      ⟨{ u with hashed_password := c.hash body.new_password }, ?_, rfl⟩, ?_⟩
    · unfold crud.authenticate
      rw [hfind2]
      simp [hnew]
    · unfold crud.authenticate
      rw [hfind2]
      simp [hold]

/-- Witness for C4: with the concrete crypto and store, a wrong current
password and a same-as-current new password are both rejected leaving
the store untouched, and after a successful change `alice`
authenticates with the new password (same id) and no longer with the
old one. -/
theorem update_password_policy_witness :
    users.update_password_me specCrypto baseStore alice
        ⟨"wrongpass1", "pw777777"⟩
      = (.error ⟨400, "Incorrect password"⟩, baseStore) ∧
    users.update_password_me specCrypto baseStore alice
        ⟨"pw123456", "pw123456"⟩
      = (.error ⟨400, "New password cannot be the same as the current one"⟩,
         baseStore) ∧
    (users.update_password_me specCrypto baseStore alice
        ⟨"pw123456", "pw777777"⟩).1
      = .ok ⟨"Password updated successfully"⟩ ∧
    (∃ v, crud.authenticate specCrypto
        (users.update_password_me specCrypto baseStore alice
          ⟨"pw123456", "pw777777"⟩).2
        alice.email "pw777777" = some v ∧ v.id = alice.id) ∧
    crud.authenticate specCrypto
        (users.update_password_me specCrypto baseStore alice
          ⟨"pw123456", "pw777777"⟩).2
        alice.email "pw123456" = none :=
  ⟨(update_password_policy specCrypto baseStore alice
      ⟨"wrongpass1", "pw777777"⟩).1 (by decide) (by decide),
   (update_password_policy specCrypto baseStore alice
      ⟨"pw123456", "pw123456"⟩).2.1 (by decide) (by decide) (by decide),
   ((update_password_policy specCrypto baseStore alice
      ⟨"pw123456", "pw777777"⟩).2.2 (by decide) (by decide) (by decide)
      (by decide) (by decide) (by decide)).1,
   ((update_password_policy specCrypto baseStore alice
      ⟨"pw123456", "pw777777"⟩).2.2 (by decide) (by decide) (by decide)
      (by decide) (by decide) (by decide)).2.1,
   ((update_password_policy specCrypto baseStore alice
      ⟨"pw123456", "pw777777"⟩).2.2 (by decide) (by decide) (by decide)
      (by decide) (by decide) (by decide)).2.2⟩

/-- C9: every endpoint that returns a User serializes it through the
`UserPublic` response model, and a serialized `UserPublic` body never
contains a `hashed_password` field — for any user, any store, and any
handler outcome (single-user responses and the user-list response). -/
theorem user_responses_exclude_hashed_password (s : Store) (cu u : User)
    (uid : OId) (r : Except HTTPException User) (skip limit : Nat) :
    "hashed_password" ∉ ((toUserPublic u).serialize.map Prod.fst) ∧
    (∀ body, respondUserPublic r = .ok body →
      "hashed_password" ∉ body.map Prod.fst) ∧
    (∀ body, respondUserPublic (users.read_user_me cu) = .ok body →
      "hashed_password" ∉ body.map Prod.fst) ∧
    (∀ body, respondUserPublic (users.read_user_by_id s cu uid) = .ok body →
      "hashed_password" ∉ body.map Prod.fst) ∧
    (∀ ups, users.read_users s cu skip limit = .ok ups →
      ∀ p ∈ ups.data, "hashed_password" ∉ (p.serialize.map Prod.fst)) := by
  have hkeys : ∀ p : UserPublic, p.serialize.map Prod.fst
      = ["_id", "email", "is_active", "is_superuser", "full_name",
         "created_at", "updated_at"] := fun p => rfl
  have hmem : "hashed_password"
      ∉ ["_id", "email", "is_active", "is_superuser", "full_name",
         "created_at", "updated_at"] := by decide
  have hgen : ∀ q : Except HTTPException User, ∀ body,
      respondUserPublic q = .ok body →
      "hashed_password" ∉ body.map Prod.fst := by
    intro q body h
    cases q with
    | error e =>
        have h' : (Except.error e : Except HTTPException (List (String × String)))
            = .ok body := h
        simp at h'
    | ok w =>
        have h' : (Except.ok ((toUserPublic w).serialize) :
            Except HTTPException (List (String × String))) = .ok body := h
        rw [← Except.ok.inj h', hkeys]
        exact hmem
  refine ⟨by rw [hkeys]; exact hmem, hgen r, hgen _, hgen _, ?_⟩
  intro ups _ p _
  rw [hkeys]
  exact hmem

/-- Witness for C9: the concrete serialized response for `alice`'s own
record carries no `hashed_password` key. -/
theorem user_responses_exclude_hashed_password_witness :
    respondUserPublic (users.read_user_me alice)
      = .ok ((toUserPublic alice).serialize) ∧
    "hashed_password" ∉ ((toUserPublic alice).serialize.map Prod.fst) :=
  ⟨rfl,
   (user_responses_exclude_hashed_password baseStore alice alice 1
      (users.read_user_me alice) 0 100).2.2.1
     ((toUserPublic alice).serialize) rfl⟩

/-- C8: partial updates write only the fields present in the patch
(password arriving as a rehash into `hashed_password` for users); every
unset field of the updated document keeps exactly its previous value,
the document id is unchanged, and all other documents are untouched. -/
theorem partial_update_frame (c : Crypto) (s : Store) (uid iid : OId)
    (user_in : UserUpdate) (item_in : ItemUpdate) :
    (∀ u, getUserById s uid = some u →
      ∀ u' s2, crud.update_user c s uid user_in = (some u', s2) →
        u'.id = u.id ∧ u'.created_at = u.created_at ∧
        u'.updated_at = u.updated_at ∧
        (user_in.email = none → u'.email = u.email) ∧
        (∀ e, user_in.email = some e → u'.email = e) ∧
        (user_in.password = none →
          u'.hashed_password = u.hashed_password) ∧
        (∀ pw, user_in.password = some pw →
          u'.hashed_password = c.hash pw) ∧
        (user_in.is_active = none → u'.is_active = u.is_active) ∧
        (user_in.is_superuser = none → u'.is_superuser = u.is_superuser) ∧
        (user_in.full_name = none → u'.full_name = u.full_name) ∧
        s2.items = s.items ∧
        (∀ v ∈ s.users, v.id ≠ uid → v ∈ s2.users)) ∧
    (∀ it, getItemById s iid = some it →
      ∀ it' s2, crud.update_item s iid item_in = (some it', s2) →
        it'.id = it.id ∧ it'.owner_id = it.owner_id ∧
        (item_in.title = none → it'.title = it.title) ∧
        (∀ t, item_in.title = some t → it'.title = t) ∧
        (item_in.description = none → it'.description = it.description) ∧
        (item_in.created_at = none → it'.created_at = it.created_at) ∧
        (item_in.updated_at = none → it'.updated_at = it.updated_at) ∧
        s2.users = s.users ∧
        (∀ x ∈ s.items, x.id ≠ iid → x ∈ s2.items)) := by
  constructor
  · intro u hget u' s2 hupd
    unfold crud.update_user at hupd
    rw [hget] at hupd
    simp only [Prod.mk.injEq, Option.some.injEq] at hupd
    obtain ⟨hu', hs2⟩ := hupd
    subst hu' hs2
    refine ⟨rfl, rfl, rfl, ?_, ?_, ?_, ?_, ?_, ?_, ?_, rfl, ?_⟩
    · intro h; simp [crud.applyUserUpdate, h]
    · intro e h; simp [crud.applyUserUpdate, h]
    · intro h; simp [crud.applyUserUpdate, h]
    · intro pw h; simp [crud.applyUserUpdate, h]
    · intro h; simp [crud.applyUserUpdate, h]
    · intro h; simp [crud.applyUserUpdate, h]
    · intro h; simp [crud.applyUserUpdate, h]
    · intro v hv hvne
      refine List.mem_map.mpr ⟨v, hv, ?_⟩
      simp [beq_eq_false_iff_ne.mpr hvne]
  · intro it hget it' s2 hupd
    unfold crud.update_item at hupd
    rw [hget] at hupd
    simp only [Prod.mk.injEq, Option.some.injEq] at hupd
    obtain ⟨hit', hs2⟩ := hupd
    subst hit' hs2
    refine ⟨rfl, rfl, ?_, ?_, ?_, ?_, ?_, rfl, ?_⟩
    · intro h; simp [crud.applyItemUpdate, h]
    · intro t h; simp [crud.applyItemUpdate, h]
    · intro h; simp [crud.applyItemUpdate, h]
    · intro h; simp [crud.applyItemUpdate, h]
    · intro h; simp [crud.applyItemUpdate, h]
    · intro x hx hxne
      refine List.mem_map.mpr ⟨x, hx, ?_⟩
      simp [beq_eq_false_iff_ne.mpr hxne]

/-- Witness for C8: patching only `alice`'s `full_name` leaves her
email, stored hash, flags and timestamps exactly as they were. -/
theorem partial_update_frame_witness :
    (crud.applyUserUpdate specCrypto alice
        ⟨none, none, none, none, some (some "Alice A.")⟩).email
      = alice.email ∧
    (crud.applyUserUpdate specCrypto alice
        ⟨none, none, none, none, some (some "Alice A.")⟩).hashed_password
      = alice.hashed_password ∧
    (crud.applyUserUpdate specCrypto alice
        ⟨none, none, none, none, some (some "Alice A.")⟩).updated_at
      = alice.updated_at :=
  ⟨((partial_update_frame specCrypto baseStore 1 10
      ⟨none, none, none, none, some (some "Alice A.")⟩ {}).1 alice (by decide)
      _ _ rfl).2.2.2.1 rfl,
   ((partial_update_frame specCrypto baseStore 1 10
      ⟨none, none, none, none, some (some "Alice A.")⟩ {}).1 alice (by decide)
      _ _ rfl).2.2.2.2.2.1 rfl,
   ((partial_update_frame specCrypto baseStore 1 10
      ⟨none, none, none, none, some (some "Alice A.")⟩ {}).1 alice (by decide)
      _ _ rfl).2.2.1⟩

/-- C7: with a free email and credential primitives satisfying
`verify(p, hash(p)) = true`, creating the user (which stores
`hash(password)`) and then authenticating with the same email and
password returns a user whose id is the new user's id — both for
`crud.create_user` directly and for the public signup route. -/
theorem register_then_authenticate (c : Crypto) (s : Store)
    (reg : UserRegister) (now : DateTime)
    (hfree : getUserByEmail s reg.email = none)
    (hverify : c.verify reg.password (c.hash reg.password) = true) :
    (∀ u s2, crud.create_user c s
        { email := reg.email, password := reg.password,
          full_name := reg.full_name } now = (u, s2) →
      ∃ v, crud.authenticate c s2 reg.email reg.password = some v ∧
        v.id = u.id) ∧
    (∀ u s2, users.register_user c s reg now = (.ok u, s2) →
      ∃ v, crud.authenticate c s2 reg.email reg.password = some v ∧
        v.id = u.id) := by
  have key : ∀ uc : UserCreate, uc.email = reg.email →
      uc.password = reg.password →
      ∀ u s2, crud.create_user c s uc now = (u, s2) →
      ∃ v, crud.authenticate c s2 reg.email reg.password = some v ∧
        v.id = u.id := by
    intro uc hemail hpw u s2 hcreate
    unfold crud.create_user at hcreate
    simp only [Prod.mk.injEq] at hcreate
    obtain ⟨hu, hs2⟩ := hcreate
    subst hu hs2
    refine ⟨_, ?_, rfl⟩
    unfold crud.authenticate getUserByEmail
    unfold getUserByEmail at hfree
    rw [List.find?_append, hfree]
    simp [hemail, hpw, hverify]
  refine ⟨key _ rfl rfl, ?_⟩
  intro u s2 hreg
  unfold users.register_user at hreg
  rw [hfree] at hreg
  simp only [Prod.mk.injEq, Except.ok.injEq] at hreg
  obtain ⟨hu, hs2⟩ := hreg
  exact key _ rfl rfl u s2 (by rw [← hu, ← hs2])

/-- Witness for C7: registering `carol@example.com` in the concrete
store and authenticating with the same credentials yields the created
user's id. -/
theorem register_then_authenticate_witness :
    ∃ v, crud.authenticate specCrypto
        (crud.create_user specCrypto baseStore
          { email := "carol@example.com", password := "pwcarol01",
            full_name := none } 9).2
        "carol@example.com" "pwcarol01" = some v ∧
      v.id = (crud.create_user specCrypto baseStore
          { email := "carol@example.com", password := "pwcarol01",
            full_name := none } 9).1.id :=
  (register_then_authenticate specCrypto baseStore
      ⟨"carol@example.com", "pwcarol01", none⟩ 9 (by decide) (by decide)).1
    _ _ rfl

/-- C2 counterexample: the private creation path performs no email
uniqueness check.  With `alice@example.com` already registered, the
private `create_user` succeeds (no conflict error) and inserts a second
user with the same email, breaking the uniqueness invariant. -/
theorem private_create_duplicate_email_counterexample :
    (private_api.create_user specCrypto baseStore
        ⟨"alice@example.com", "pw999999", "X", false⟩ 5).1
      = .ok { id := 11, email := "alice@example.com",
              hashed_password := "!pw999999", is_active := true,
              is_superuser := false, full_name := some "X",
              created_at := 5, updated_at := 5 } ∧
    ((private_api.create_user specCrypto baseStore
        ⟨"alice@example.com", "pw999999", "X", false⟩ 5).2.users.map
      (fun u => u.email))
      = ["alice@example.com", "bob@example.com", "admin@example.com",
         "alice@example.com"] ∧
    ¬ uniqueEmails (private_api.create_user specCrypto baseStore
        ⟨"alice@example.com", "pw999999", "X", false⟩ 5).2 := by
  refine ⟨rfl, rfl, ?_⟩
  decide

/-- C2 (amended): the signup route and the admin creation route fail
with a conflict error and leave the store untouched when the requested
email already exists, and both preserve the email-uniqueness invariant;
the private creation path checks nothing and unconditionally inserts a
user with the requested email. -/
theorem email_uniqueness_on_creation (c : Crypto) (s : Store) (cu : User)
    (reg : UserRegister) (user_in : UserCreate) (pin : PrivateUserCreate)
    (now : DateTime) :
    (∀ u0, getUserByEmail s reg.email = some u0 →
      users.register_user c s reg now
        = (.error ⟨400,
            "The user with this email already exists in the system"⟩, s)) ∧
    (cu.is_superuser = true →
      ∀ u0, getUserByEmail s user_in.email = some u0 →
      users.create_user c s cu user_in now
        = (.error ⟨400,
            "The user with this email already exists in the system."⟩, s)) ∧
    (uniqueEmails s → uniqueEmails (users.register_user c s reg now).2) ∧
    (uniqueEmails s →
      uniqueEmails (users.create_user c s cu user_in now).2) ∧
    (∃ u, private_api.create_user c s pin now
        = (.ok u, { s with users := s.users ++ [u] }) ∧
      u.email = pin.email) := by
  have hpreserve : ∀ e : String, getUserByEmail s e = none →
      ∀ w : User, w.email = e → uniqueEmails s →
      uniqueEmails { s with users := s.users ++ [w] } := by
    intro e hfree w hw huniq
    unfold uniqueEmails at huniq ⊢
    rw [List.pairwise_append]
    refine ⟨huniq, List.pairwise_singleton _ _, ?_⟩
    intro a ha b hb
    have hb' : b = w := by simpa using hb
    subst hb'
    have hne := List.find?_eq_none.mp hfree a ha
    rw [hw]
    simpa using hne
  refine ⟨?_, ?_, ?_, ?_, ⟨_, rfl, rfl⟩⟩
  · intro u0 hdup
    unfold users.register_user
    rw [hdup]
  · intro hsu u0 hdup
    unfold users.create_user get_current_active_superuser
    rw [hdup]
    simp [hsu]
  · intro huniq
    unfold users.register_user
    cases hfind : getUserByEmail s reg.email with
    | some u0 => exact huniq
    | none =>
        unfold crud.create_user
        exact hpreserve reg.email hfind _ rfl huniq
  · intro huniq
    unfold users.create_user get_current_active_superuser
    cases hsu : cu.is_superuser with
    | false => exact huniq
    | true =>
        cases hfind : getUserByEmail s user_in.email with
        | some u0 => exact huniq
        | none =>
            unfold crud.create_user
            exact hpreserve user_in.email hfind _ rfl huniq

/-- Witness for C2 (amended): registering `alice`'s email again via
signup and via the admin route both yield the conflict error with an
untouched store, and uniqueness is preserved on a fresh signup. -/
theorem email_uniqueness_on_creation_witness :
    users.register_user specCrypto baseStore
        ⟨"alice@example.com", "pwdup9999", none⟩ 7
      = (.error ⟨400,
          "The user with this email already exists in the system"⟩,
         baseStore) ∧
    users.create_user specCrypto baseStore rootUser
        ⟨"alice@example.com", "pwdup9999", true, false, none⟩ 7
      = (.error ⟨400,
          "The user with this email already exists in the system."⟩,
         baseStore) ∧
    uniqueEmails (users.register_user specCrypto baseStore
        ⟨"carol@example.com", "pwcarol01", none⟩ 7).2 :=
  ⟨(email_uniqueness_on_creation specCrypto baseStore rootUser
      ⟨"alice@example.com", "pwdup9999", none⟩
      ⟨"alice@example.com", "pwdup9999", true, false, none⟩
      ⟨"x@example.com", "pw888888", "X", false⟩ 7).1 alice (by decide),
   (email_uniqueness_on_creation specCrypto baseStore rootUser
      ⟨"alice@example.com", "pwdup9999", none⟩
      ⟨"alice@example.com", "pwdup9999", true, false, none⟩
      ⟨"x@example.com", "pw888888", "X", false⟩ 7).2.1 (by decide) alice
      (by decide),
   (email_uniqueness_on_creation specCrypto baseStore rootUser
      ⟨"carol@example.com", "pwcarol01", none⟩
      ⟨"alice@example.com", "pwdup9999", true, false, none⟩
      ⟨"x@example.com", "pw888888", "X", false⟩ 7).2.2.1 (by decide)⟩

/-- C1 counterexample: deletion does not always cascade.  `alice`'s
successful self-delete leaves her item in the store, and the by-id
delete of `bob`, who owns 101 items, leaves one of them behind because
the owner query is capped at its default `limit=100`. -/
theorem user_delete_cascade_counterexample :
    (users.delete_user_me baseStore alice).1
      = .ok ⟨"User deleted successfully"⟩ ∧
    (users.delete_user_me baseStore alice).2.items.filter
        (fun it => it.owner_id == alice.id) = [book] ∧
    (users.delete_user manyItemsStore rootUser 2).1
      = .ok ⟨"User deleted successfully"⟩ ∧
    ((users.delete_user manyItemsStore rootUser 2).2.items.filter
        (fun it => it.owner_id == 2)).length = 1 := by
  refine ⟨rfl, rfl, rfl, ?_⟩
  set_option maxRecDepth 100000 in decide

/-- C1 (amended): only the by-id path cascades, and only up to the
query's default limit.  A non-superuser's self-delete removes just the
user document and leaves the items collection untouched; a superuser's
delete-by-id of another existing user removes all of the target's owned
items (whenever the target owns at most 100 of them) and then removes
the user document. -/
theorem user_delete_cascade (s : Store) (u cu target : User) (uid : OId) :
    (u.is_active = true → u.is_superuser = false →
      users.delete_user_me s u
        = (.ok ⟨"User deleted successfully"⟩,
           { s with users := s.users.filter (fun v => v.id != u.id) }) ∧
      (users.delete_user_me s u).2.items = s.items) ∧
    (cu.is_superuser = true → getUserById s uid = some target →
      target.id ≠ cu.id →
      (s.items.filter (fun it => it.owner_id == uid)).length ≤ 100 →
      (users.delete_user s cu uid).1 = .ok ⟨"User deleted successfully"⟩ ∧
      (users.delete_user s cu uid).2.items.filter
          (fun it => it.owner_id == uid) = [] ∧
      getUserById (users.delete_user s cu uid).2 uid = none) := by
  constructor
  · intro hact hsu
    have hres : users.delete_user_me s u
        = (.ok ⟨"User deleted successfully"⟩,
           { s with users := s.users.filter (fun v => v.id != u.id) }) := by
      unfold users.delete_user_me get_current_active_user
      simp [hact, hsu]
    exact ⟨hres, by rw [hres]⟩
  · intro hsu hfind hne hlen
    have htid : target.id = uid := by
      have := List.find?_some hfind
      simpa using this
    have hL : crud.get_items_by_owner s uid
        = s.items.filter (fun it => it.owner_id == uid) := by
      unfold crud.get_items_by_owner
      rw [List.drop_zero, List.take_of_length_le hlen]
    have hres : users.delete_user s cu uid
        = (.ok ⟨"User deleted successfully"⟩,
           { users := s.users.filter (fun v => v.id != target.id)
             items := s.items.filter (fun x =>
               (crud.get_items_by_owner s uid).all
                 (fun it => x.id != it.id)) }) := by
      unfold users.delete_user get_current_active_superuser
      rw [hfind]
      simp [hsu, beq_eq_false_iff_ne.mpr hne, foldl_delete_items]
    refine ⟨by rw [hres], ?_, ?_⟩
    · rw [hres]
      rw [List.filter_eq_nil_iff]
      intro a ha howner
      obtain ⟨hain, hall⟩ := List.mem_filter.mp ha
      have haL : a ∈ crud.get_items_by_owner s uid := by
        rw [hL]
        exact List.mem_filter.mpr ⟨hain, howner⟩
      have hself := List.all_eq_true.mp hall a haL
      simp at hself
    · rw [hres]
      unfold getUserById
      rw [List.find?_eq_none]
      intro x hx hbeq
      obtain ⟨-, hxid⟩ := List.mem_filter.mp hx
      rw [htid] at hxid
      have hxne : x.id ≠ uid := by simpa using hxid
      exact hxne (beq_iff_eq.mp hbeq)

/-- Witness for C1 (amended): `alice`'s self-delete removes only her
user document, and the superuser's by-id delete of `alice` (one owned
item, under the limit) succeeds leaving no item owned by her. -/
theorem user_delete_cascade_witness :
    users.delete_user_me baseStore alice
      = (.ok ⟨"User deleted successfully"⟩,
         { baseStore with
           users := baseStore.users.filter (fun v => v.id != alice.id) }) ∧
    (users.delete_user baseStore rootUser 1).1
      = .ok ⟨"User deleted successfully"⟩ ∧
    (users.delete_user baseStore rootUser 1).2.items.filter
        (fun it => it.owner_id == 1) = [] :=
  ⟨((user_delete_cascade baseStore alice rootUser alice 1).1
      (by decide) (by decide)).1,
   ((user_delete_cascade baseStore alice rootUser alice 1).2
      (by decide) (by decide) (by decide) (by decide)).1,
   ((user_delete_cascade baseStore alice rootUser alice 1).2
      (by decide) (by decide) (by decide) (by decide)).2.1⟩

end App
